import Mathlib

/-!
# Shallow embedding of the hot-choco risk-scoring engine

This file models the risk-scoring core of the `chocoapp/hot-choco`
dashboard: the duplicated pure risk scorers (`calculateRiskScore` in
`src/app/graph/page.tsx` and in the `RiskOverview` component, and the
three breakdown helpers in `src/components/UnifiedDetailsModal.tsx`),
the classification function `getRiskLevel`, the feature-grouping map,
the Supabase bug normalization (`src/services/supabaseService.ts`),
and the aggregation orchestrator `calculateFeatureRiskData`.

Modelling conventions:
* JavaScript numbers are modelled as exact rationals (`ℚ`); all the
  arithmetic the scorer performs is on small integers scaled by the
  fixed weights 0.50 / 0.40 / 0.10, so `ℚ` is a faithful model of the
  values the program computes and compares.
* Optional / possibly-`undefined` string fields are `Option String`;
  JavaScript truthiness of such a field (`undefined` and `""` are
  falsy) is the `truthy` predicate below.
* A JS `switch` over string literals is translated to the equivalent
  chain of equality tests.
* Impure inputs (the Supabase table, query failures, the Allure test
  stats, the current time) are passed explicitly as environment
  parameters.
-/

set_option autoImplicit false

namespace HotChoco

/-- JS truthiness for an optional string field: `undefined` and the
empty string are falsy. -/
def truthy : Option String → Bool
  | none => false
  | some s => s ≠ ""

/-- JS `a || b` for an optional string with a string default:
returns the field when truthy, the default otherwise. -/
def jsOr (o : Option String) (d : String) : String :=
  match o with
  | none => d
  | some s => if s = "" then d else s

/-- Model of JS `String.prototype.toLowerCase` (`.toLowerCase()`):
lower-case every character.  (Extensionally `String.toLower`, written
over the character list so that it evaluates inside the kernel; the
values it is compared against are all ASCII.) -/
def toLowerCase (s : String) : String :=
  String.mk (s.data.map Char.toLower)

/-- String interpolation of a possibly-`undefined` field:
`undefined` renders as the literal text `"undefined"` in a JS
template string. -/
def jsInterp : Option String → String
  | none => "undefined"
  | some s => s

/-- The three-way risk classification (low / medium / high). -/
inductive RiskLevel
  | low
  | medium
  | high
deriving Repr, DecidableEq, Inhabited

/-- Numeric rank of a risk level, used to state monotonicity of the
classification. -/
def levelRank : RiskLevel → Nat
  | .low => 0
  | .medium => 1
  | .high => 2

/-- A normalized bug report (`BugReport` in
`src/services/supabaseService.ts`).  `severity` and `status` are kept
as plain strings: at runtime they are untyped JS strings, and the
the `switch` of the scorer has a `default` branch for unrecognized
values. -/
structure BugReport where
  id : String
  product : String
  sectionId : String
  feature : String
  title : String
  description : String
  severity : String
  status : String
  createdAt : String
  updatedAt : String
  tags : List String
  source : Option String
  team : Option String
  issueType : Option String
  statusCategory : Option String
deriving Repr, DecidableEq, Inhabited

namespace GraphPage

/-- Function `calculateRiskScore` from `src/app/graph/page.tsx` (lines
627–670): bug volume capped at 30 plus severity-weighted sum, a step
function of the test count, a step function of the screen count,
combined with weights 0.50 / 0.40 / 0.10. -/
def calculateRiskScore (openBugs : List BugReport) (testCount : Nat)
    (screenCount : Nat) : ℚ :=
  let bugVolumeScore : Nat := min (openBugs.length * 3) 30
  let severityScore : Nat := openBugs.foldl (fun score bug =>
    if bug.severity = "critical" then score + 20
    else if bug.severity = "high" then score + 12
    else if bug.severity = "medium" then score + 6
    else if bug.severity = "low" then score + 2
    else score + 6) 0
  let bugRiskScore : Nat := bugVolumeScore + severityScore
  let testCoverageRisk : Nat :=
    if testCount = 0 then 30
    else if testCount ≤ 5 then 20
    else if testCount ≤ 10 then 10
    else 0
  let complexityRisk : Nat :=
    if screenCount = 1 then 0
    else if screenCount ≤ 2 then 5
    else if screenCount ≤ 4 then 10
    else 15
  (bugRiskScore : ℚ) * 0.50 + (testCoverageRisk : ℚ) * 0.40
    + (complexityRisk : ℚ) * 0.10

/-- Function `getRiskLevel` from `src/app/graph/page.tsx` (lines 672–676). -/
def getRiskLevel (riskScore : ℚ) : RiskLevel :=
  if riskScore ≤ 20 then .low
  else if riskScore ≤ 40 then .medium
  else .high

end GraphPage

namespace RiskOverview

/-- The own copy of `calculateRiskScore` held by the `RiskOverview`
component (the source duplicates the function verbatim). -/
def calculateRiskScore (openBugs : List BugReport) (testCount : Nat)
    (screenCount : Nat) : ℚ :=
  let bugVolumeScore : Nat := min (openBugs.length * 3) 30
  let severityScore : Nat := openBugs.foldl (fun score bug =>
    if bug.severity = "critical" then score + 20
    else if bug.severity = "high" then score + 12
    else if bug.severity = "medium" then score + 6
    else if bug.severity = "low" then score + 2
    else score + 6) 0
  let bugRiskScore : Nat := bugVolumeScore + severityScore
  let testCoverageRisk : Nat :=
    if testCount = 0 then 30
    else if testCount ≤ 5 then 20
    else if testCount ≤ 10 then 10
    else 0
  let complexityRisk : Nat :=
    if screenCount = 1 then 0
    else if screenCount ≤ 2 then 5
    else if screenCount ≤ 4 then 10
    else 15
  (bugRiskScore : ℚ) * 0.50 + (testCoverageRisk : ℚ) * 0.40
    + (complexityRisk : ℚ) * 0.10

/-- The copy of `getRiskLevel` held by the `RiskOverview` component. -/
def getRiskLevel (riskScore : ℚ) : RiskLevel :=
  if riskScore ≤ 20 then .low
  else if riskScore ≤ 40 then .medium
  else .high

end RiskOverview

namespace UnifiedDetailsModal

/-- Function `calculateBugRisk` from `src/components/UnifiedDetailsModal.tsx`
(lines 93–105): the unweighted bug-risk sub-score. -/
def calculateBugRisk (openBugs : List BugReport) : Nat :=
  let bugVolumeScore : Nat := min (openBugs.length * 3) 30
  let severityScore : Nat := openBugs.foldl (fun score bug =>
    if bug.severity = "critical" then score + 20
    else if bug.severity = "high" then score + 12
    else if bug.severity = "medium" then score + 6
    else if bug.severity = "low" then score + 2
    else score + 6) 0
  bugVolumeScore + severityScore

/-- Function `calculateTestCoverageRisk` from `UnifiedDetailsModal.tsx`
(lines 107–112). -/
def calculateTestCoverageRisk (testCount : Nat) : Nat :=
  if testCount = 0 then 30
  else if testCount ≤ 5 then 20
  else if testCount ≤ 10 then 10
  else 0

/-- Function `calculateComplexityRisk` from `UnifiedDetailsModal.tsx`
(lines 114–119). -/
def calculateComplexityRisk (screenCount : Nat) : Nat :=
  if screenCount = 1 then 0
  else if screenCount ≤ 2 then 5
  else if screenCount ≤ 4 then 10
  else 15

/-- The copy of `getRiskLevel` held by the modal. -/
def getRiskLevel (riskScore : ℚ) : RiskLevel :=
  if riskScore ≤ 20 then .low
  else if riskScore ≤ 40 then .medium
  else .high

end UnifiedDetailsModal

/-- Proof-side abbreviation for the per-bug severity points of the
per-bug `switch` of the scorer (critical 20, high 12, medium 6, low 2, anything
else 6). -/
def severityPoints (bug : BugReport) : Nat :=
  if bug.severity = "critical" then 20
  else if bug.severity = "high" then 12
  else if bug.severity = "medium" then 6
  else if bug.severity = "low" then 2
  else 6

/-- A concrete bug record with critical severity, used as a witness
input. -/
def sampleCriticalBug : BugReport :=
  { id := "BUG-1", product := "choco", sectionId := "checkout",
    feature := "payment", title := "crash", description := "crash",
    severity := "critical", status := "open", createdAt := "2024",
    updatedAt := "2024", tags := [], source := none, team := none,
    issueType := none, statusCategory := none }

/-- A flow-graph screen record (`FlowNodeData`), restricted to the
fields the grouping and orchestration read; `product`, `section` and
`feature` are optional in the source type. -/
structure FlowNodeData where
  id : String
  label : String
  product : Option String
  sectionId : Option String
  feature : Option String
deriving Repr, DecidableEq, Inhabited

/-- The grouping key `` `${node.product}:${node.section}:${node.feature}` ``
(a JS template string, so a missing field renders as `"undefined"`). -/
def featureKey (node : FlowNodeData) : String :=
  jsInterp node.product ++ ":" ++ jsInterp node.sectionId ++ ":"
    ++ jsInterp node.feature

/-- Lookup `featureMap.get(key)` on the insertion-ordered map, modelled as an
association list. -/
def findBucket (m : List (String × List FlowNodeData)) (key : String) :
    Option (List FlowNodeData) :=
  match m with
  | [] => none
  | (k, l) :: rest => if k = key then some l else findBucket rest key

/-- The bucket stored under `key`, or `[]` when the key is absent. -/
def bucketD (m : List (String × List FlowNodeData)) (key : String) :
    List FlowNodeData :=
  (findBucket m key).getD []

/-- Insertion `featureMap.set(key, [])` on first encounter (a JS `Map` appends
new keys at the end) followed by `featureMap.get(key)!.push(node)`. -/
def pushBucket (m : List (String × List FlowNodeData)) (key : String)
    (node : FlowNodeData) : List (String × List FlowNodeData) :=
  match m with
  | [] => [(key, [node])]
  | (k, l) :: rest =>
      if k = key then (k, l ++ [node]) :: rest
      else (k, l) :: pushBucket rest key node

/-- The body of the `nodes.forEach` grouping loop of
`calculateFeatureRiskData` (`RiskOverview` component): skip a node
when `!node.feature || !node.product` (note: `section` is NOT
checked), otherwise push it onto the bucket for its key. -/
def featureMapGo (m : List (String × List FlowNodeData)) :
    List FlowNodeData → List (String × List FlowNodeData)
  | [] => m
  | node :: rest =>
      featureMapGo
        (if !truthy node.feature || !truthy node.product then m
         else pushBucket m (featureKey node) node) rest

/-- The feature-grouping map built by `calculateFeatureRiskData`. -/
def featureMap (nodes : List FlowNodeData) :
    List (String × List FlowNodeData) :=
  featureMapGo [] nodes

/-- Predicate: the grouping loop actually buckets this node (feature
and product truthy; `section` plays no role). -/
def bucketed (node : FlowNodeData) : Bool :=
  truthy node.feature && truthy node.product

/-- A concrete screen with a product and feature but no section. -/
def sectionlessNode : FlowNodeData :=
  { id := "s1", label := "Login screen", product := some "chocofood",
    sectionId := none, feature := some "login" }

/-- The `metadata` JSON column of a Supabase row
(`SupabaseMetadata`), restricted to the fields the bug pipeline
reads; `loc`, `blobType` and the vector `embedding` of the row are
never consulted by the code under verification.  `sourceType` is
non-optional in the TypeScript type. -/
structure SupabaseMetadata where
  date : Option String
  team : Option String
  source : Option String
  status : Option String
  feature : Option String
  product : Option String
  sectionId : Option String
  issueType : Option String
  sourceType : String
  statusCategory : Option String
deriving Repr, DecidableEq, Inhabited

/-- A row of the Supabase documents table (`SupabaseRow`). -/
structure SupabaseRow where
  id : String
  content : String
  metadata : SupabaseMetadata
  created_at : Option String
  updated_at : Option String
deriving Repr, DecidableEq, Inhabited

/-- Function `mapIssueTypeToSeverity` from `src/services/supabaseService.ts`
(lines 161–174): a `switch` on `issueType?.toLowerCase()` —
security/critical → critical, bug/high → high, medium → medium, and
the `default` branch returns the string low. -/
def mapIssueTypeToSeverity (issueType : Option String) : String :=
  let lowered := issueType.map toLowerCase
  if lowered = some "security" ∨ lowered = some "critical" then "critical"
  else if lowered = some "bug" ∨ lowered = some "high" then "high"
  else if lowered = some "medium" then "medium"
  else "low"

/-- Function `mapStatusToStandardStatus` from `supabaseService.ts` (lines
176–195): a `switch` on `status?.toLowerCase()`; the `default` branch
returns the string open. -/
def mapStatusToStandardStatus (status : Option String) : String :=
  let lowered := status.map toLowerCase
  if lowered = some "open" ∨ lowered = some "new" then "open"
  else if lowered = some "in progress" ∨ lowered = some "in-progress"
      ∨ lowered = some "working" then "in-progress"
  else if lowered = some "resolved" ∨ lowered = some "fixed" then "resolved"
  else if lowered = some "closed" ∨ lowered = some "not a bug"
      ∨ lowered = some "done" then "closed"
  else "open"

/-- JS `array.filter(Boolean)` over optional strings: keeps the
truthy entries. -/
def jsCompact (l : List (Option String)) : List String :=
  l.filterMap (fun o =>
    match o with
    | none => none
    | some s => if s = "" then none else some s)

/-- Function `convertRowToBugReport` from `supabaseService.ts` (lines
140–159).  The call `new Date().toISOString()` used as a last-resort
timestamp is passed in as the explicit parameter `now`. -/
def convertRowToBugReport (now : String) (row : SupabaseRow) : BugReport :=
  let metadata := row.metadata
  { id := row.id
    product := jsOr metadata.product "unknown"
    sectionId := jsOr metadata.sectionId "unknown"
    feature := jsOr metadata.feature "unknown"
    title := jsOr metadata.source "Untitled Bug"
    description := row.content
    severity := mapIssueTypeToSeverity metadata.issueType
    status := mapStatusToStandardStatus metadata.status
    createdAt := jsOr metadata.date (jsOr row.created_at now)
    updatedAt := jsOr row.updated_at (jsOr row.created_at now)
    tags := jsCompact [metadata.team, metadata.issueType]
    source := metadata.source
    team := metadata.team
    issueType := metadata.issueType
    statusCategory := metadata.statusCategory }

/-- A concrete stored row whose `issueType` is unrecognized and whose
`status` is missing. -/
def sampleRow : SupabaseRow :=
  { id := "row-1", content := "Payment button unresponsive",
    metadata :=
      { date := none, team := some "payments", source := some "CHOCO-42",
        status := none, feature := some "login",
        product := some "chocofood", sectionId := none,
        issueType := some "Improvement", sourceType := "bug",
        statusCategory := some "open" },
    created_at := none, updated_at := none }

/-- The filters attached to the query built by
`getBugReportsByStatus`: `.eq` on `metadata->>sourceType` with `bug`,
`.eq` on `metadata->>statusCategory`, and `.eq` on
`metadata->>feature` only when `feature` is truthy.
Neither `product` nor `section` ever appears in the query. -/
structure BugQuery where
  sourceType : String
  statusCategory : String
  featureFilter : Option String
deriving Repr, DecidableEq, Inhabited

/-- The query `getBugReportsByStatus` constructs from its arguments
(the `if (feature)` guard decides whether the feature filter is
attached). -/
def buildBugQuery (statusCategory : String) (feature : Option String) :
    BugQuery :=
  { sourceType := "bug", statusCategory := statusCategory,
    featureFilter := if truthy feature then feature else none }

/-- Server-side evaluation of the `.eq` filters of the query on one row
(`metadata->>field` is `null` for a missing field, and `null` never
equals a string). -/
def rowMatches (q : BugQuery) (row : SupabaseRow) : Bool :=
  row.metadata.sourceType == q.sourceType
    && row.metadata.statusCategory == some q.statusCategory
    && (match q.featureFilter with
        | some f => row.metadata.feature == some f
        | none => true)

/-- The Supabase backend as observed by `getBugReportsByStatus`: the
stored rows, plus which queries fail (covering both the client
returning a non-null `error` and the request throwing — the function
returns `[]` in either case). -/
structure SupabaseEnv where
  db : List SupabaseRow
  failure : BugQuery → Option String

/-- Function `getBugReportsByStatus` from `supabaseService.ts` (lines
356–396): build the query (only `sourceType`, `statusCategory` and —
when truthy — `feature` are filtered on; `product` and `section` are
accepted but never used), return `[]` on any error, otherwise convert
every returned row. -/
def getBugReportsByStatus (env : SupabaseEnv) (now : String)
    (product : String) (statusCategory : String)
    (sectionId : Option String) (feature : Option String) :
    List BugReport :=
  let q := buildBugQuery statusCategory feature
  match env.failure q with
  | some _ => []
  | none => (env.db.filter (rowMatches q)).map (convertRowToBugReport now)

/-- Allure `TestStats` (`{ total, passed, failed, skipped }`). -/
structure TestStats where
  total : Nat
  passed : Nat
  failed : Nat
  skipped : Nat
deriving Repr, DecidableEq, Inhabited

/-- The external world of the aggregation orchestrator: the Supabase
bug store, the Allure `getTestStats` provider (which yields `null`
when it has no data), and the current time. -/
structure OrchestratorEnv where
  supabase : SupabaseEnv
  getTestStats : String → Option String → Option String → Option TestStats
  now : String

/-- One `FeatureRiskData` record of the `RiskOverview` component. -/
structure FeatureRiskData where
  featureId : String
  featureName : String
  product : String
  sectionId : String
  screens : List FlowNodeData
  riskScore : ℚ
  openBugs : List BugReport
  closedBugs : List BugReport
  testCount : Nat
deriving Repr, DecidableEq, Inhabited

/-- One iteration of the `for (const [key, screens] of
featureMap.entries())` loop of `calculateFeatureRiskData`: fetch the
open and closed bugs of the bucket and its test stats (through the
identifiers of the first screen — `firstScreen.product!` is a
type-level assertion only), treat a `null` test result as `total = 0`
(`testStats?.total || 0`), score with the screen count of the bucket, and
assemble the entry. -/
def mkFeatureRiskEntry (env : OrchestratorEnv) (key : String)
    (screens : List FlowNodeData) : FeatureRiskData :=
  let firstScreen := screens.headD default
  let openBugs := getBugReportsByStatus env.supabase env.now
    (firstScreen.product.getD "") "open" firstScreen.sectionId
    firstScreen.feature
  let closedBugs := getBugReportsByStatus env.supabase env.now
    (firstScreen.product.getD "") "closed" firstScreen.sectionId
    firstScreen.feature
  let testStats := env.getTestStats (firstScreen.product.getD "")
    firstScreen.sectionId firstScreen.feature
  let testCount := (testStats.map TestStats.total).getD 0
  let screenCount := screens.length
  let riskScore := RiskOverview.calculateRiskScore openBugs testCount
    screenCount
  { featureId := key
    featureName := jsOr firstScreen.feature "Unknown Feature"
    product := jsOr firstScreen.product "Unknown Product"
    sectionId := jsOr firstScreen.sectionId "Unknown Section"
    screens := screens
    riskScore := riskScore
    openBugs := openBugs
    closedBugs := closedBugs
    testCount := testCount }

/-- The unsorted `featureRiskData` array the orchestrator pushes one
entry per bucket onto, in bucket encounter order. -/
def featureRiskDataList (env : OrchestratorEnv)
    (nodes : List FlowNodeData) : List FeatureRiskData :=
  (featureMap nodes).map (fun kv => mkFeatureRiskEntry env kv.1 kv.2)

/-- The JS comparator `(a, b) => b.riskScore - a.riskScore`: `a`
sorts no later than `b` exactly when `b.riskScore ≤ a.riskScore`
(descending, ties keep encounter order under a stable sort). -/
def riskDescLE (a b : FeatureRiskData) : Bool :=
  decide (b.riskScore ≤ a.riskScore)

/-- Function `calculateFeatureRiskData` of the `RiskOverview` component:
group, fetch and score each bucket, then stable-sort by risk score
descending (`Array.prototype.sort` is stable). -/
def calculateFeatureRiskData (env : OrchestratorEnv)
    (nodes : List FlowNodeData) : List FeatureRiskData :=
  (featureRiskDataList env nodes).mergeSort riskDescLE

/-- A concrete orchestrator environment in which every `open`-status
bug query fails and the test provider has no data. -/
def sampleEnv : OrchestratorEnv :=
  { supabase :=
      { db := [sampleRow],
        failure := fun q =>
          if q.statusCategory == "open" then some "network down"
          else none },
    getTestStats := fun _ _ _ => none,
    now := "2024-01-01T00:00:00Z" }

theorem foldl_severity (bugs : List BugReport) (n : Nat) :
    bugs.foldl (fun score bug =>
      if bug.severity = "critical" then score + 20
      else if bug.severity = "high" then score + 12
      else if bug.severity = "medium" then score + 6
      else if bug.severity = "low" then score + 2
      else score + 6) n
      = n + (bugs.map severityPoints).sum := by
  induction bugs generalizing n with
  | nil => simp
  | cons b l ih =>
    simp only [List.foldl_cons, List.map_cons, List.sum_cons, ih]
    unfold severityPoints
    split_ifs <;> omega

/-- C1: for every open-bug list, non-negative test count and screen
count ≥ 1, `calculateRiskScore` returns exactly
`bugRisk * 0.50 + coverageRisk * 0.40 + complexityRisk * 0.10`, with
`bugRisk = min (3·|bugs|) 30 + Σ severity points`
(critical 20 / high 12 / medium 6 / low 2 / unrecognized 6),
coverage 30 / 20 / 10 / 0 on the bands 0, 1–5, 6–10, ≥ 11, and
complexity 0 / 5 / 10 / 15 on the bands 1, 2, 3–4, ≥ 5. -/
theorem riskScore_matches_formula (openBugs : List BugReport)
    (testCount screenCount : Nat) (hsc : 1 ≤ screenCount) :
    GraphPage.calculateRiskScore openBugs testCount screenCount =
      ((min (3 * openBugs.length) 30
          + (openBugs.map severityPoints).sum : Nat) : ℚ) * 0.50
      + ((if testCount = 0 then (30 : Nat)
          else if 1 ≤ testCount ∧ testCount ≤ 5 then 20
          else if 6 ≤ testCount ∧ testCount ≤ 10 then 10
          else 0 : Nat) : ℚ) * 0.40
      + ((if screenCount = 1 then (0 : Nat)
          else if screenCount = 2 then 5
          else if 3 ≤ screenCount ∧ screenCount ≤ 4 then 10
          else if 5 ≤ screenCount then 15
          else 0 : Nat) : ℚ) * 0.10 := by
  have hcov :
      (if testCount = 0 then (30 : Nat)
        else if testCount ≤ 5 then 20
        else if testCount ≤ 10 then 10
        else 0)
      = (if testCount = 0 then (30 : Nat)
        else if 1 ≤ testCount ∧ testCount ≤ 5 then 20
        else if 6 ≤ testCount ∧ testCount ≤ 10 then 10
        else 0) := by
    split_ifs <;> omega
  have hcomp :
      (if screenCount = 1 then (0 : Nat)
        else if screenCount ≤ 2 then 5
        else if screenCount ≤ 4 then 10
        else 15)
      = (if screenCount = 1 then (0 : Nat)
        else if screenCount = 2 then 5
        else if 3 ≤ screenCount ∧ screenCount ≤ 4 then 10
        else if 5 ≤ screenCount then 15
        else 0) := by
    split_ifs <;> omega
  simp only [GraphPage.calculateRiskScore, foldl_severity, Nat.zero_add,
    hcov, hcomp, Nat.mul_comm openBugs.length 3]

/-- Witness for `riskScore_matches_formula` at the concrete input
`([sampleCriticalBug], 3, 2)`. -/
theorem riskScore_matches_formula_witness :
    1 ≤ 2
    ∧ GraphPage.calculateRiskScore [sampleCriticalBug] 3 2 =
      ((min (3 * [sampleCriticalBug].length) 30
          + ([sampleCriticalBug].map severityPoints).sum : Nat) : ℚ) * 0.50
      + ((if (3 : Nat) = 0 then (30 : Nat)
          else if 1 ≤ (3 : Nat) ∧ (3 : Nat) ≤ 5 then 20
          else if 6 ≤ (3 : Nat) ∧ (3 : Nat) ≤ 10 then 10
          else 0 : Nat) : ℚ) * 0.40
      + ((if (2 : Nat) = 1 then (0 : Nat)
          else if (2 : Nat) = 2 then 5
          else if 3 ≤ (2 : Nat) ∧ (2 : Nat) ≤ 4 then 10
          else if 5 ≤ (2 : Nat) then 15
          else 0 : Nat) : ℚ) * 0.10 :=
  ⟨by decide, riskScore_matches_formula [sampleCriticalBug] 3 2 (by decide)⟩

/-- C2: `getRiskLevel` classifies `low` iff the score is ≤ 20,
`medium` iff it is in (20, 40], `high` iff it is > 40; the boundary
values 20 / 20.01 / 40 / 40.01 classify low / medium / medium / high;
and the classification is monotone in the score. -/
theorem riskLevel_classification (s t : ℚ) :
    ((GraphPage.getRiskLevel s = .low ↔ s ≤ 20)
      ∧ (GraphPage.getRiskLevel s = .medium ↔ 20 < s ∧ s ≤ 40)
      ∧ (GraphPage.getRiskLevel s = .high ↔ 40 < s))
    ∧ (GraphPage.getRiskLevel 20 = .low
      ∧ GraphPage.getRiskLevel 20.01 = .medium
      ∧ GraphPage.getRiskLevel 40 = .medium
      ∧ GraphPage.getRiskLevel 40.01 = .high)
    ∧ (s ≤ t →
        levelRank (GraphPage.getRiskLevel s)
          ≤ levelRank (GraphPage.getRiskLevel t)) := by
  refine ⟨⟨?_, ?_, ?_⟩, ⟨?_, ?_, ?_, ?_⟩, ?_⟩
  · unfold GraphPage.getRiskLevel
    split_ifs with h1 h2
    · exact iff_of_true rfl h1
    · exact iff_of_false (by simp) h1
    · exact iff_of_false (by simp) h1
  · unfold GraphPage.getRiskLevel
    split_ifs with h1 h2
    · exact iff_of_false (by simp) (by intro h; linarith [h.1])
    · exact iff_of_true rfl ⟨by linarith, h2⟩
    · exact iff_of_false (by simp) (fun h => h2 h.2)
  · unfold GraphPage.getRiskLevel
    split_ifs with h1 h2
    · exact iff_of_false (by simp) (by linarith)
    · exact iff_of_false (by simp) (by linarith)
    · exact iff_of_true rfl (by linarith)
  · norm_num [GraphPage.getRiskLevel]
  · norm_num [GraphPage.getRiskLevel]
  · norm_num [GraphPage.getRiskLevel]
  · norm_num [GraphPage.getRiskLevel]
  · intro hst
    unfold GraphPage.getRiskLevel
    split_ifs <;> simp [levelRank] <;> exfalso <;> linarith

/-- Witness for `riskLevel_classification`: monotone step at the
concrete pair (12, 32.5). -/
theorem riskLevel_classification_witness :
    (12 : ℚ) ≤ 32.5
    ∧ levelRank (GraphPage.getRiskLevel 12)
        ≤ levelRank (GraphPage.getRiskLevel 32.5) :=
  ⟨by norm_num, (riskLevel_classification 12 32.5).2.2 (by norm_num)⟩

/-- C3: the three scoring call sites agree numerically: the
`RiskOverview` copy of `calculateRiskScore` equals the one of the
graph page, and the weighted breakdown of the detail modal
`bugRisk·0.5 + coverageRisk·0.4 + complexityRisk·0.1` reproduces the
same composite value exactly. -/
theorem callSites_agree (openBugs : List BugReport)
    (testCount screenCount : Nat) :
    RiskOverview.calculateRiskScore openBugs testCount screenCount
      = GraphPage.calculateRiskScore openBugs testCount screenCount
    ∧ (UnifiedDetailsModal.calculateBugRisk openBugs : ℚ) * 0.5
      + (UnifiedDetailsModal.calculateTestCoverageRisk testCount : ℚ) * 0.4
      + (UnifiedDetailsModal.calculateComplexityRisk screenCount : ℚ) * 0.1
      = GraphPage.calculateRiskScore openBugs testCount screenCount := by
  constructor
  · rfl
  · simp only [UnifiedDetailsModal.calculateBugRisk,
      UnifiedDetailsModal.calculateTestCoverageRisk,
      UnifiedDetailsModal.calculateComplexityRisk,
      GraphPage.calculateRiskScore]
    norm_num

/-- C8: appending one critical-severity bug to the bug list never
lowers the composite score at `testCount = 10`, `screenCount = 1`. -/
theorem riskScore_monotone_in_critical_bugs (B : List BugReport)
    (c : BugReport) (hc : c.severity = "critical") :
    GraphPage.calculateRiskScore B 10 1
      ≤ GraphPage.calculateRiskScore (B ++ [c]) 10 1 := by
  have hpts : severityPoints c = 20 := by
    unfold severityPoints
    rw [hc]
    norm_num
  simp only [GraphPage.calculateRiskScore, foldl_severity, Nat.zero_add,
    List.map_append, List.map_cons, List.map_nil, List.sum_append,
    List.sum_cons, List.sum_nil, List.length_append, List.length_cons,
    List.length_nil, hpts, Nat.add_zero]
  gcongr <;> omega

/-- Witness for `riskScore_monotone_in_critical_bugs` at
`B = []`, `c = sampleCriticalBug`. -/
theorem riskScore_monotone_in_critical_bugs_witness :
    sampleCriticalBug.severity = "critical"
    ∧ GraphPage.calculateRiskScore [] 10 1
        ≤ GraphPage.calculateRiskScore ([] ++ [sampleCriticalBug]) 10 1 :=
  ⟨rfl, riskScore_monotone_in_critical_bugs [] sampleCriticalBug rfl⟩

theorem findBucket_pushBucket_self
    (m : List (String × List FlowNodeData)) (k : String)
    (n : FlowNodeData) :
    findBucket (pushBucket m k n) k = some (bucketD m k ++ [n]) := by
  induction m with
  | nil => simp [pushBucket, findBucket, bucketD]
  | cons p rest ih =>
    obtain ⟨k', l⟩ := p
    by_cases h : k' = k
    · simp [pushBucket, findBucket, bucketD, h]
    · simp [pushBucket, findBucket, bucketD, h, ih]

theorem findBucket_pushBucket_ne
    (m : List (String × List FlowNodeData)) (k k' : String)
    (n : FlowNodeData) (h : k' ≠ k) :
    findBucket (pushBucket m k n) k' = findBucket m k' := by
  induction m with
  | nil => simp [pushBucket, findBucket, Ne.symm h]
  | cons p rest ih =>
    obtain ⟨k'', l⟩ := p
    by_cases h2 : k'' = k
    · simp [pushBucket, findBucket, h2, Ne.symm h]
    · by_cases h3 : k'' = k'
      · simp [pushBucket, findBucket, h2, h3, h, ih]
      · simp [pushBucket, findBucket, h2, h3, ih]

theorem bucketD_featureMapGo (nodes : List FlowNodeData)
    (m : List (String × List FlowNodeData)) (k : String) :
    bucketD (featureMapGo m nodes) k
      = bucketD m k
        ++ nodes.filter (fun n => bucketed n && (featureKey n == k)) := by
  induction nodes generalizing m with
  | nil => simp [featureMapGo]
  | cons node rest ih =>
    by_cases he : bucketed node
    · have hcond : (!truthy node.feature || !truthy node.product) = false := by
        simp only [bucketed, Bool.and_eq_true] at he
        simp [he.1, he.2]
      by_cases hk : featureKey node = k
      · have : bucketD (pushBucket m (featureKey node) node) k
            = bucketD m k ++ [node] := by
          rw [← hk]
          simp [bucketD, findBucket_pushBucket_self]
        simp only [featureMapGo, hcond, Bool.false_eq_true, if_false, ih,
          this, List.filter_cons]
        simp [he, hk, List.append_assoc]
      · have : bucketD (pushBucket m (featureKey node) node) k
            = bucketD m k := by
          simp [bucketD, findBucket_pushBucket_ne _ _ _ _
            (fun hh => hk hh.symm)]
        simp only [featureMapGo, hcond, Bool.false_eq_true, if_false, ih,
          this, List.filter_cons]
        simp [hk]
    · have hcond : (!truthy node.feature || !truthy node.product) = true := by
        simp only [bucketed, Bool.and_eq_true, not_and_or,
          Bool.not_eq_true] at he
        rcases he with h | h <;> simp [h]
      simp only [featureMapGo, hcond, if_true, ih, List.filter_cons]
      simp [he]

theorem isSome_featureMapGo (nodes : List FlowNodeData)
    (m : List (String × List FlowNodeData)) (k : String) :
    (findBucket (featureMapGo m nodes) k).isSome
      = ((findBucket m k).isSome
        || !(nodes.filter (fun n => bucketed n && (featureKey n == k))).isEmpty) := by
  induction nodes generalizing m with
  | nil => simp [featureMapGo]
  | cons node rest ih =>
    by_cases he : bucketed node
    · have hcond : (!truthy node.feature || !truthy node.product) = false := by
        simp only [bucketed, Bool.and_eq_true] at he
        simp [he.1, he.2]
      by_cases hk : featureKey node = k
      · have hsome : (findBucket (pushBucket m k node) k).isSome = true := by
          rw [← hk]
          simp [findBucket_pushBucket_self]
        simp [featureMapGo, hcond, ih, hsome, List.filter_cons, he, hk]
      · have hne : findBucket (pushBucket m (featureKey node) node) k
            = findBucket m k :=
          findBucket_pushBucket_ne _ _ _ _ (fun hh => hk hh.symm)
        simp [featureMapGo, hcond, ih, hne, List.filter_cons, hk]
    · have hcond : (!truthy node.feature || !truthy node.product) = true := by
        simp only [bucketed, Bool.and_eq_true, not_and_or,
          Bool.not_eq_true] at he
        rcases he with h | h <;> simp [h]
      simp [featureMapGo, hcond, ih, List.filter_cons, he]

/-- C4 (amended): the grouping buckets exactly the screens whose
`feature` and `product` are truthy — `section` is NOT required.  Each
bucket of each key is precisely the in-order sublist of input screens whose
own key matches (so a screen is only ever in the bucket of its own
key, order is preserved, and a screen missing product or feature is
in no bucket); a bucket exists exactly when it is non-empty; and
every screen with truthy feature and product lands in the bucket of
its own key. -/
theorem featureGrouping_characterization (nodes : List FlowNodeData)
    (k : String) :
    (bucketD (featureMap nodes) k
      = nodes.filter (fun n =>
          (truthy n.feature && truthy n.product) && (featureKey n == k)))
    ∧ ((findBucket (featureMap nodes) k).isSome ↔
        nodes.filter (fun n =>
          (truthy n.feature && truthy n.product) && (featureKey n == k)) ≠ [])
    ∧ (∀ n ∈ nodes, truthy n.feature = true → truthy n.product = true →
        n ∈ bucketD (featureMap nodes) (featureKey n)) := by
  have h1 : bucketD (featureMap nodes) k
      = nodes.filter (fun n => bucketed n && (featureKey n == k)) := by
    simpa [featureMap] using bucketD_featureMapGo nodes [] k
  refine ⟨h1, ?_, ?_⟩
  · have h2 := isSome_featureMapGo nodes [] k
    simp only [featureMap, findBucket, Option.isSome_none,
      Bool.false_or] at h2 ⊢
    rw [h2]
    simp [bucketed, List.isEmpty_iff]
  · intro n hn hf hp
    have h3 : bucketD (featureMap nodes) (featureKey n)
        = nodes.filter (fun x => bucketed x && (featureKey x == featureKey n)) := by
      simpa [featureMap] using bucketD_featureMapGo nodes [] (featureKey n)
    rw [h3]
    refine List.mem_filter.mpr ⟨hn, ?_⟩
    simp [bucketed, hf, hp]

/-- Counterexample to C4 as stated: a screen missing only `section`
is nevertheless bucketed (under a key whose middle component renders
as `"undefined"`), refuting "a screen missing any one of the three
(including a screen missing only section) appears in no bucket". -/
theorem featureGrouping_section_not_required :
    truthy sectionlessNode.sectionId = false
    ∧ featureMap [sectionlessNode]
        = [("chocofood:undefined:login", [sectionlessNode])]
    ∧ sectionlessNode
        ∈ bucketD (featureMap [sectionlessNode]) "chocofood:undefined:login" := by
  refine ⟨rfl, ?_, ?_⟩ <;>
    simp [featureMap, featureMapGo, sectionlessNode, truthy, pushBucket,
      featureKey, jsInterp, bucketD, findBucket]

/-- Witness for `featureGrouping_characterization`: the concrete
sectionless screen lands in the bucket of its own key. -/
theorem featureGrouping_characterization_witness :
    sectionlessNode ∈ [sectionlessNode]
    ∧ truthy sectionlessNode.feature = true
    ∧ truthy sectionlessNode.product = true
    ∧ sectionlessNode
        ∈ bucketD (featureMap [sectionlessNode]) (featureKey sectionlessNode) :=
  ⟨by simp, rfl, rfl,
    (featureGrouping_characterization [sectionlessNode]
      (featureKey sectionlessNode)).2.2 sectionlessNode (by simp) rfl rfl⟩

/-- C9: the coverage-risk step function is non-increasing in the test
count: `t1 < t2` implies the step value at `t2` is ≤ the value at
`t1`. -/
theorem coverageRisk_antitone (t1 t2 : Nat) (h : t1 < t2) :
    UnifiedDetailsModal.calculateTestCoverageRisk t2
      ≤ UnifiedDetailsModal.calculateTestCoverageRisk t1 := by
  unfold UnifiedDetailsModal.calculateTestCoverageRisk
  split_ifs <;> omega

/-- Witness for `coverageRisk_antitone` at the pair (0, 11). -/
theorem coverageRisk_antitone_witness :
    0 < 11
    ∧ UnifiedDetailsModal.calculateTestCoverageRisk 11
        ≤ UnifiedDetailsModal.calculateTestCoverageRisk 0 :=
  ⟨by decide, coverageRisk_antitone 0 11 (by decide)⟩

/-- Counterexample to C5 as stated: a missing `issueType` normalizes
to severity low, not medium — the `default` branch of
`mapIssueTypeToSeverity` returns the string low. -/
theorem severityDefault_is_low :
    mapIssueTypeToSeverity none = "low"
    ∧ mapIssueTypeToSeverity none ≠ "medium"
    ∧ mapIssueTypeToSeverity (some "Improvement") = "low" := by
  refine ⟨rfl, by decide, by decide⟩

/-- C5 (amended): normalization is total and always yields a severity
and a status; a missing or unrecognized `issueType` defaults to
severity `low` (not `medium`), a missing or unrecognized status
defaults to `open`, and no record is rejected (every row maps to a
bug whose severity and status are drawn from the four valid values
each). -/
theorem normalization_defaults (it st : Option String) (now : String)
    (row : SupabaseRow) (rows : List SupabaseRow) :
    ((∀ s ∈ it, toLowerCase s ∉
        (["security", "critical", "bug", "high", "medium"] : List String)) →
      mapIssueTypeToSeverity it = "low")
    ∧ ((∀ s ∈ st, toLowerCase s ∉
        (["open", "new", "in progress", "in-progress", "working",
          "resolved", "fixed", "closed", "not a bug", "done"] : List String)) →
      mapStatusToStandardStatus st = "open")
    ∧ (convertRowToBugReport now row).severity ∈
        (["low", "medium", "high", "critical"] : List String)
    ∧ (convertRowToBugReport now row).status ∈
        (["open", "in-progress", "resolved", "closed"] : List String)
    ∧ (rows.map (convertRowToBugReport now)).length = rows.length := by
  refine ⟨?_, ?_, ?_, ?_, by simp⟩
  · intro h
    match it with
    | none => rfl
    | some s =>
      have hs := h s rfl
      simp only [List.mem_cons, List.not_mem_nil, or_false, not_or] at hs
      obtain ⟨h1, h2, h3, h4, h5⟩ := hs
      simp [mapIssueTypeToSeverity, h1, h2, h3, h4, h5]
  · intro h
    match st with
    | none => rfl
    | some s =>
      have hs := h s rfl
      simp only [List.mem_cons, List.not_mem_nil, or_false, not_or] at hs
      obtain ⟨h1, h2, h3, h4, h5, h6, h7, h8, h9, h10⟩ := hs
      simp [mapStatusToStandardStatus, h1, h2, h3, h4, h5, h6, h7, h8,
        h9, h10]
  · show mapIssueTypeToSeverity row.metadata.issueType ∈ _
    simp only [mapIssueTypeToSeverity]
    split_ifs <;> simp
  · show mapStatusToStandardStatus row.metadata.status ∈ _
    simp only [mapStatusToStandardStatus]
    split_ifs <;> simp

/-- Witness for `normalization_defaults` at an unrecognized
`issueType`, a missing status, and the concrete `sampleRow`. -/
theorem normalization_defaults_witness :
    mapIssueTypeToSeverity (some "Improvement") = "low"
    ∧ mapStatusToStandardStatus none = "open"
    ∧ (convertRowToBugReport "2024-01-01T00:00:00Z" sampleRow).severity ∈
        (["low", "medium", "high", "critical"] : List String)
    ∧ (convertRowToBugReport "2024-01-01T00:00:00Z" sampleRow).status ∈
        (["open", "in-progress", "resolved", "closed"] : List String) := by
  have h := normalization_defaults (some "Improvement") none
    "2024-01-01T00:00:00Z" sampleRow []
  refine ⟨h.1 ?_, h.2.1 ?_, h.2.2.1, h.2.2.2.1⟩
  · intro s hs
    have hseq : some "Improvement" = some s := hs
    cases hseq
    decide
  · intro s hs
    cases hs

/-- C10: `getBugReportsByStatus` is insensitive to its `product` and
`section` arguments: two calls differing only in them return the same
bug list (the query it builds filters only on `sourceType`,
`statusCategory` and `feature`). -/
theorem bugQuery_ignores_product_section (env : SupabaseEnv)
    (now : String) (statusCategory : String) (feature : Option String)
    (p1 p2 : String) (s1 s2 : Option String) :
    getBugReportsByStatus env now p1 statusCategory s1 feature
      = getBugReportsByStatus env now p2 statusCategory s2 feature := rfl

/-- C6: per-bucket resilience of the orchestrator.  If the open-bug
query for one bucket fails, the entry of that bucket is still produced,
with an empty open-bug list and a score computed from the substituted
values (and a `null` test result counts as zero tests); the output
has one entry per bucket regardless; and every bucket whose own query
succeeds gets its fully populated bug list. -/
theorem orchestrator_resilience (env : OrchestratorEnv)
    (nodes : List FlowNodeData) (k : String)
    (screens : List FlowNodeData) (e : String)
    (hmem : (k, screens) ∈ featureMap nodes)
    (hfail : env.supabase.failure
      (buildBugQuery "open" (screens.headD default).feature) = some e) :
    (featureRiskDataList env nodes).length = (featureMap nodes).length
    ∧ (∃ entry ∈ featureRiskDataList env nodes,
        entry.featureId = k ∧ entry.screens = screens
        ∧ entry.openBugs = []
        ∧ entry.riskScore
            = RiskOverview.calculateRiskScore [] entry.testCount
                screens.length
        ∧ (env.getTestStats ((screens.headD default).product.getD "")
              (screens.headD default).sectionId
              (screens.headD default).feature = none →
            entry.testCount = 0))
    ∧ (∀ k' screens', (k', screens') ∈ featureMap nodes →
        ∃ entry ∈ featureRiskDataList env nodes,
          entry.featureId = k' ∧ entry.screens = screens'
          ∧ (env.supabase.failure
              (buildBugQuery "open" (screens'.headD default).feature)
                = none →
            entry.openBugs
              = (env.supabase.db.filter
                  (rowMatches (buildBugQuery "open"
                    (screens'.headD default).feature))).map
                  (convertRowToBugReport env.now))) := by
  refine ⟨by simp [featureRiskDataList], ?_, ?_⟩
  · refine ⟨mkFeatureRiskEntry env k screens, ?_, ?_, ?_, ?_, ?_, ?_⟩
    · exact List.mem_map_of_mem
        (fun kv => mkFeatureRiskEntry env kv.1 kv.2) hmem
    · rfl
    · rfl
    · simp only [List.headD_eq_head?_getD] at hfail
      simp [mkFeatureRiskEntry, getBugReportsByStatus, hfail]
    · simp only [List.headD_eq_head?_getD] at hfail
      simp [mkFeatureRiskEntry, getBugReportsByStatus, hfail]
    · intro hts
      simp only [List.headD_eq_head?_getD] at hts
      simp [mkFeatureRiskEntry, hts]
  · intro k' screens' hm
    refine ⟨mkFeatureRiskEntry env k' screens', ?_, rfl, rfl, ?_⟩
    · exact List.mem_map_of_mem
        (fun kv => mkFeatureRiskEntry env kv.1 kv.2) hm
    · intro hok
      simp only [List.headD_eq_head?_getD] at hok
      simp [mkFeatureRiskEntry, getBugReportsByStatus, hok]

/-- Witness for `orchestrator_resilience` on the concrete environment
`sampleEnv` (whose open-bug query fails) and the single-screen input
`[sectionlessNode]`. -/
theorem orchestrator_resilience_witness :
    (("chocofood:undefined:login", [sectionlessNode])
        ∈ featureMap [sectionlessNode]
      ∧ sampleEnv.supabase.failure
          (buildBugQuery "open"
            (([sectionlessNode] : List FlowNodeData).headD default).feature)
          = some "network down")
    ∧ (featureRiskDataList sampleEnv [sectionlessNode]).length
        = (featureMap [sectionlessNode]).length
    ∧ (∃ entry ∈ featureRiskDataList sampleEnv [sectionlessNode],
        entry.featureId = "chocofood:undefined:login"
        ∧ entry.screens = [sectionlessNode]
        ∧ entry.openBugs = []
        ∧ entry.riskScore
            = RiskOverview.calculateRiskScore [] entry.testCount
                ([sectionlessNode] : List FlowNodeData).length
        ∧ (sampleEnv.getTestStats
              ((([sectionlessNode] : List FlowNodeData).headD default).product.getD "")
              (([sectionlessNode] : List FlowNodeData).headD default).sectionId
              (([sectionlessNode] : List FlowNodeData).headD default).feature
                = none →
            entry.testCount = 0)) :=
  have h := orchestrator_resilience sampleEnv [sectionlessNode]
    "chocofood:undefined:login" [sectionlessNode] "network down"
    (by decide) (by decide)
  ⟨⟨by decide, by decide⟩, h.1, h.2.1⟩

theorem riskDescLE_trans (a b c : FeatureRiskData)
    (h1 : riskDescLE a b) (h2 : riskDescLE b c) : riskDescLE a c := by
  simp only [riskDescLE, decide_eq_true_eq] at h1 h2 ⊢
  linarith

theorem riskDescLE_total (a b : FeatureRiskData) :
    riskDescLE a b || riskDescLE b a := by
  simp only [riskDescLE, Bool.or_eq_true, decide_eq_true_eq]
  exact le_total b.riskScore a.riskScore

theorem mergeSort_riskDescLE_filter (l : List FeatureRiskData) (v : ℚ) :
    (l.mergeSort riskDescLE).filter (fun e => e.riskScore == v)
      = l.filter (fun e => e.riskScore == v) := by
  have hperm : (l.mergeSort riskDescLE).Perm l :=
    List.mergeSort_perm l riskDescLE
  have hall : ∀ x ∈ l.filter (fun e => e.riskScore == v),
      x.riskScore = v := by
    intro x hx
    simpa using (List.mem_filter.mp hx).2
  have hpw : (l.filter (fun e => e.riskScore == v)).Pairwise
      (fun a b => riskDescLE a b = true) :=
    List.pairwise_of_forall_mem_list (fun a ha b hb => by
      simp only [riskDescLE, decide_eq_true_eq, hall a ha, hall b hb,
        le_refl])
  have hsub : List.Sublist (l.filter (fun e => e.riskScore == v))
      (l.mergeSort riskDescLE) :=
    List.sublist_mergeSort riskDescLE_trans riskDescLE_total hpw
      (List.filter_sublist l)
  have hcc : (l.filter (fun e => e.riskScore == v)).filter
      (fun e => e.riskScore == v) = l.filter (fun e => e.riskScore == v) :=
    List.filter_eq_self.mpr (fun a ha => (List.mem_filter.mp ha).2)
  have hsub2 : List.Sublist (l.filter (fun e => e.riskScore == v))
      ((l.mergeSort riskDescLE).filter (fun e => e.riskScore == v)) := by
    have h2 := hsub.filter (fun e => e.riskScore == v)
    rwa [hcc] at h2
  have hlen : ((l.mergeSort riskDescLE).filter
      (fun e => e.riskScore == v)).length
        = (l.filter (fun e => e.riskScore == v)).length :=
    (hperm.filter _).length_eq
  exact (hsub2.eq_of_length hlen.symm).symm

/-- C7: the aggregated overview is sorted by risk score descending,
and it is a stable sort of the bucket encounter order: for each score
value, the entries carrying that score appear in the sorted output in
exactly their original encounter order. -/
theorem overview_sorted_and_stable (env : OrchestratorEnv)
    (nodes : List FlowNodeData) :
    (calculateFeatureRiskData env nodes).Pairwise
      (fun a b => b.riskScore ≤ a.riskScore)
    ∧ ∀ v : ℚ,
        (calculateFeatureRiskData env nodes).filter
          (fun e => e.riskScore == v)
        = (featureRiskDataList env nodes).filter
          (fun e => e.riskScore == v) := by
  constructor
  · have h := List.sorted_mergeSort
      riskDescLE_trans riskDescLE_total (featureRiskDataList env nodes)
    refine List.Pairwise.imp ?_ h
    intro a b hab
    simpa [riskDescLE] using hab
  · intro v
    exact mergeSort_riskDescLE_filter (featureRiskDataList env nodes) v

end HotChoco
